import Mathlib

/-!
Verification development for a video-captioning pipeline (`app.py`).

The program is a three-stage per-item pipeline over uploaded videos:
  1. `extract_audio_from_video` : runs the external transcoder (ffmpeg)
     to pull the audio track out of the video container;
  2. `transcribe_and_save_srt`  : checks the audio file exists, sends its
     bytes to an external speech-to-text service requesting SRT output,
     and writes the response verbatim to a fresh `tempfile.mktemp` path;
  3. `embed_subtitle_in_video`  : runs the transcoder again to burn the
     subtitles into the video.
`main` iterates over the uploaded batch inside a `tempfile.TemporaryDirectory`,
wraps the three stages in `try/except FileNotFoundError, OSError`, exposes the
output for download/preview, and then best-effort deletes the item's scratch
files inside a second `try/except OSError`.

Embedding choices:
  - A filesystem path is a list of components (`FPath`); the filesystem is an
    association list from paths to file contents (`FS`).  File contents are
    modelled as `String` (the program only moves bytes around verbatim).
  - The external transcoder and the speech-to-text service are black-box
    oracles bundled in `World`: the transcoder maps a command vector and a
    filesystem to an exit code, a resulting filesystem, and the diagnostic
    text it printed (which `subprocess.run` without capture does NOT store
    anywhere); the service maps the uploaded audio bytes to either an SRT
    body or a service-level error.
  - Python exceptions are the inductive `PyExc`; the `try/except` clauses of
    `main` catch exactly the `OSError` family (`FileNotFoundError` included),
    mirrored by `isOSErr`.
  - Observable behaviour (process invocations, network calls, user-visible
    error messages, download/preview exposure, deletion attempts, logged
    cleanup warnings) is recorded as a trace of `Event`s.
-/

/-- A filesystem path, as its list of components ("/tmp/x.srt" = ["tmp", "x.srt"]). -/
abbrev FPath := List String

/-- The filesystem: an association list from paths to file contents. -/
abbrev FS := List (FPath × String)

/-- Rendering of a structured path to the string form passed on command lines. -/
def renderPath (p : FPath) : String := String.intercalate "/" ("" :: p)

/-- `os.path.join` of a directory and one further component. -/
def pathJoin (dir : FPath) (name : String) : FPath := dir ++ [name]

/-- Lookup of a file's content; `none` when no file exists at the path. -/
def fsLookup : FS → FPath → Option String
  | [], _ => none
  | (q, c) :: rest, p => if q = p then some c else fsLookup rest p

/-- Removal of every binding at path `p`. -/
def fsErase : FS → FPath → FS
  | [], _ => []
  | (q, c) :: rest, p => if q = p then fsErase rest p else (q, c) :: fsErase rest p

/-- File creation/overwrite (`open(p, "w"/"wb"); write(c)`). -/
def fsWrite (fs : FS) (p : FPath) (c : String) : FS := (p, c) :: fsErase fs p

/-- `os.remove`: `none` when the file does not exist (`FileNotFoundError`),
otherwise the filesystem with the file gone. -/
def fsRemove (fs : FS) (p : FPath) : Option FS :=
  if (fsLookup fs p).isSome then some (fsErase fs p) else none

/-- Test that `p` lies at or below directory `dir` (component-wise). -/
def underDir (dir p : FPath) : Bool := decide (p.take dir.length = dir)

/-- `shutil.rmtree`-style removal of a directory and everything below it,
as performed by `tempfile.TemporaryDirectory` on scope exit. -/
def removeDirTree : FS → FPath → FS
  | [], _ => []
  | (q, c) :: rest, dir =>
      if underDir dir q then removeDirTree rest dir
      else (q, c) :: removeDirTree rest dir

/-- The Python exceptions this program can raise.
`calledProcessError` carries what `subprocess.CalledProcessError` carries when
`subprocess.run` is called with `check=True` and no output capture: the command
vector and the return code (its `output`/`stderr` attributes are `None`).
`osError` is the `OSError("...") from e` raised by the two ffmpeg wrappers.
`nameError` models the `UnboundLocalError` (a `NameError`) raised when the
cleanup code reads `subtitle_file_path` before any assignment to it. -/
inductive PyExc where
  | calledProcessError (cmd : List String) (returncode : Nat) : PyExc
  | osError (msg : String) (cause : PyExc) : PyExc
  | fileNotFoundError (msg : String) : PyExc
  | serviceError (msg : String) : PyExc
  | nameError : PyExc
deriving DecidableEq, Repr

/-- Whether an exception is caught by `except OSError` (or the paired
`except FileNotFoundError`, a subclass).  The speech-to-text client's
errors derive from plain `Exception`, not `OSError`; `NameError` likewise. -/
def isOSErr : PyExc → Bool
  | .osError _ _ => true
  | .fileNotFoundError _ => true
  | _ => false

/-- `str(e)` as interpolated into the user-visible error message. -/
def excMessage : PyExc → String
  | .calledProcessError _ rc => "Command returned non-zero exit status " ++ toString rc
  | .osError m _ => m
  | .fileNotFoundError m => m
  | .serviceError m => m
  | .nameError => "local variable referenced before assignment"

/-- Every string an exception object carries (message plus, recursively,
whatever its chained cause carries). -/
def excStrings : PyExc → List String
  | .calledProcessError cmd rc => ("Command returned non-zero exit status " ++ toString rc) :: cmd
  | .osError m c => m :: excStrings c
  | .fileNotFoundError m => [m]
  | .serviceError m => [m]
  | .nameError => ["local variable referenced before assignment"]

/-- Observable events of a run. -/
inductive Event where
  | proc (cmd : List String) : Event
  | netCall (audioBytes : String) : Event
  | stError (msg : String) : Event
  | download (p : FPath) : Event
  | preview (p : FPath) : Event
  | removeAttempt (p : FPath) (ok : Bool) : Event
  | logWarning : Event
deriving DecidableEq, Repr

/-- Result of one external transcoder invocation: its exit code, the
filesystem after whatever it wrote, and the diagnostic text it printed to
the console (never captured by the program). -/
structure ProcOutcome where
  exitCode : Nat
  newFs : FS
  diagnostic : String

/-- The black-box external collaborators: the transcoder binary and the
speech-to-text service (audio bytes in, SRT body or error message out). -/
structure World where
  ffmpeg : List String → FS → ProcOutcome
  stt : String → Except String String

/- ## The three pipeline stages (app.py lines 14-122) -/

/-- The exact argument vector built at app.py line 36. -/
def extractCommand (video_file_path output_audio_path : FPath) : List String :=
  ["ffmpeg", "-i", renderPath video_file_path, "-q:a", "0", "-map", "a",
   renderPath output_audio_path]

/-- The exact argument vector built at app.py lines 110-115
(`f"subtitles={subtitle_file_path}"` interpolates the path). -/
def embedCommand (video_file_path subtitle_file_path output_file_path : FPath) :
    List String :=
  ["ffmpeg", "-i", renderPath video_file_path, "-vf",
   "subtitles=" ++ renderPath subtitle_file_path, renderPath output_file_path]

/-- Outcome of one ffmpeg-wrapper stage: the exception it raised (if any),
the filesystem after the external process ran, and the emitted events. -/
structure StageOut where
  exc : Option PyExc
  fs : FS
  events : List Event

/-- app.py lines 14-43.  Runs `subprocess.run(command, check=True)`; on a
non-zero exit `subprocess` raises `CalledProcessError` (carrying only the
command and return code — output is not captured) and the wrapper re-raises
`OSError("Failed to extract audio from video") from e`.  The filesystem is
whatever the external process left behind, in both cases. -/
def extract_audio_from_video (w : World) (video_file_path output_audio_path : FPath)
    (fs : FS) : StageOut :=
  let command := extractCommand video_file_path output_audio_path
  let r := w.ffmpeg command fs
  if r.exitCode = 0 then ⟨none, r.newFs, [.proc command]⟩
  else
    ⟨some (.osError "Failed to extract audio from video"
        (.calledProcessError command r.exitCode)), r.newFs, [.proc command]⟩

/-- Outcome of the transcription stage: the raised exception or the returned
SRT path, the filesystem, the next `mktemp` counter, and the events. -/
structure TransOut where
  res : Except PyExc FPath
  fs : FS
  tmp : Nat
  events : List Event

/-- The unique fresh path produced by `tempfile.mktemp(suffix=".srt")`:
a fresh name in the global temporary directory (NOT inside the
`TemporaryDirectory` the orchestrator creates). -/
def mktempSrt (n : Nat) : FPath := ["tmp", "tmp" ++ toString n ++ ".srt"]

/-- app.py lines 45-84.  Checks `os.path.isfile` and raises
`FileNotFoundError` before any network activity; otherwise reads the audio
bytes, calls the speech-to-text service (a `netCall` event), and on success
writes the returned transcript verbatim to a fresh `mktemp` path.  A failure
of the service call surfaces as the client library's own exception type
(modelled `serviceError`), which is not an `OSError`.  The
`input_video_name` parameter is accepted but never used by the body. -/
def transcribe_and_save_srt (w : World) (tmp : Nat) (audio_file_path : FPath)
    (input_video_name : String) (fs : FS) : TransOut :=
  match fsLookup fs audio_file_path with
  | none =>
      ⟨.error (.fileNotFoundError
          ("Audio file " ++ renderPath audio_file_path ++ " does not exist")),
       fs, tmp, []⟩
  | some audio =>
      match w.stt audio with
      | .error m => ⟨.error (.serviceError m), fs, tmp, [.netCall audio]⟩
      | .ok transcript =>
          let srt_path := mktempSrt tmp
          ⟨.ok srt_path, fsWrite fs srt_path transcript, tmp + 1, [.netCall audio]⟩

/-- app.py lines 86-122; same `subprocess.run(check=True)` pattern as
extraction, re-raising `OSError("Failed to embed subtitles in video") from e`. -/
def embed_subtitle_in_video (w : World)
    (video_file_path subtitle_file_path output_file_path : FPath) (fs : FS) :
    StageOut :=
  let command := embedCommand video_file_path subtitle_file_path output_file_path
  let r := w.ffmpeg command fs
  if r.exitCode = 0 then ⟨none, r.newFs, [.proc command]⟩
  else
    ⟨some (.osError "Failed to embed subtitles in video"
        (.calledProcessError command r.exitCode)), r.newFs, [.proc command]⟩

/- ## The batch orchestrator (app.py lines 124-173) -/

/-- Outcome of the per-item cleanup block (app.py lines 167-173). -/
structure CleanOut where
  exc : Option PyExc
  fs : FS
  events : List Event

/-- app.py lines 167-173: one `try` block running `os.remove` on the scratch
video, the audio, and `subtitle_file_path` in that order, with a single
`except OSError` that logs a warning.  A first failing remove therefore skips
the remaining removes.  `sv` is the current value of the `subtitle_file_path`
variable: if it has never been assigned in this `main` call (`none`),
evaluating it raises an `UnboundLocalError` (a `NameError`), which the
`except OSError` clause does NOT catch. -/
def cleanupItem (video_file_path output_audio_path : FPath) (sv : Option FPath)
    (fs : FS) : CleanOut :=
  match fsRemove fs video_file_path with
  | none => ⟨none, fs, [.removeAttempt video_file_path false, .logWarning]⟩
  | some fs1 =>
      match fsRemove fs1 output_audio_path with
      | none =>
          ⟨none, fs1, [.removeAttempt video_file_path true,
            .removeAttempt output_audio_path false, .logWarning]⟩
      | some fs2 =>
          match sv with
          | none =>
              ⟨some .nameError, fs2, [.removeAttempt video_file_path true,
                .removeAttempt output_audio_path true]⟩
          | some s =>
              match fsRemove fs2 s with
              | none =>
                  ⟨none, fs2, [.removeAttempt video_file_path true,
                    .removeAttempt output_audio_path true,
                    .removeAttempt s false, .logWarning]⟩
              | some fs3 =>
                  ⟨none, fs3, [.removeAttempt video_file_path true,
                    .removeAttempt output_audio_path true, .removeAttempt s true]⟩

/-- State after one loop iteration (or a prefix of one that raised). -/
structure TryOut where
  exc : Option PyExc
  fs : FS
  tmp : Nat
  sv : Option FPath
  events : List Event

/-- The body of the `try` at app.py lines 142-160 (the upload has already
been written): extract, transcribe (which assigns `subtitle_file_path`,
an assignment that survives even if a later stage raises), embed, then
`open(output_video_path, "rb")` for the download button and preview.
`exc` is the exception escaping the block, before any `except` applies. -/
def itemBody (w : World) (temp_dir : FPath) (name : String) (fs : FS) (tmp : Nat)
    (sv : Option FPath) : TryOut :=
  let video_file_path := pathJoin temp_dir name
  let output_audio_path := pathJoin temp_dir "extracted_audio.wav"
  let output_video_path := pathJoin temp_dir ("output_" ++ name)
  let e1 := extract_audio_from_video w video_file_path output_audio_path fs
  match e1.exc with
  | some e => ⟨some e, e1.fs, tmp, sv, e1.events⟩
  | none =>
      let t := transcribe_and_save_srt w tmp output_audio_path name e1.fs
      match t.res with
      | .error e => ⟨some e, t.fs, t.tmp, sv, e1.events ++ t.events⟩
      | .ok srt =>
          let e2 := embed_subtitle_in_video w video_file_path srt
            output_video_path t.fs
          match e2.exc with
          | some e => ⟨some e, e2.fs, t.tmp, some srt, e1.events ++ t.events ++ e2.events⟩
          | none =>
              match fsLookup e2.fs output_video_path with
              | none =>
                  ⟨some (.fileNotFoundError
                      ("No such file or directory: " ++ renderPath output_video_path)),
                   e2.fs, t.tmp, some srt, e1.events ++ t.events ++ e2.events⟩
              | some _ =>
                  ⟨none, e2.fs, t.tmp, some srt,
                   e1.events ++ t.events ++ e2.events ++
                     [.download output_video_path, .preview output_video_path]⟩

/-- One full iteration of the `for uploaded_video in uploaded_videos` loop:
save the upload, run the guarded pipeline body, catch `FileNotFoundError` /
`OSError` into a `st.error` message naming the item, let anything else
propagate (skipping cleanup), and otherwise run the cleanup block (whose
own uncaught `NameError`, if any, propagates). -/
def processItem (w : World) (temp_dir : FPath) (name content : String) (fs : FS)
    (tmp : Nat) (sv : Option FPath) : TryOut :=
  let video_file_path := pathJoin temp_dir name
  let output_audio_path := pathJoin temp_dir "extracted_audio.wav"
  let fs0 := fsWrite fs video_file_path content
  let b := itemBody w temp_dir name fs0 tmp sv
  match b.exc with
  | some e =>
      if isOSErr e then
        let c := cleanupItem video_file_path output_audio_path b.sv b.fs
        ⟨c.exc, c.fs, b.tmp, b.sv,
         b.events ++ [.stError ("Error processing " ++ name ++ ": " ++ excMessage e)]
           ++ c.events⟩
      else ⟨some e, b.fs, b.tmp, b.sv, b.events⟩
  | none =>
      let c := cleanupItem video_file_path output_audio_path b.sv b.fs
      ⟨c.exc, c.fs, b.tmp, b.sv, b.events ++ c.events⟩

/-- The loop over the uploaded batch, threading the filesystem, the fresh-name
counter and the `subtitle_file_path` variable; stops at the first uncaught
exception. -/
def mainLoop (w : World) (temp_dir : FPath) (videos : List (String × String))
    (fs : FS) (tmp : Nat) (sv : Option FPath) : Option PyExc × FS × List Event :=
  match videos with
  | [] => (none, fs, [])
  | (name, content) :: rest =>
      let s := processItem w temp_dir name content fs tmp sv
      match s.exc with
      | some e => (some e, s.fs, s.events)
      | none =>
          let r := mainLoop w temp_dir rest s.fs s.tmp s.sv
          (r.1, r.2.1, s.events ++ r.2.2)

/-- The scratch workspace created by `tempfile.TemporaryDirectory()`. -/
def mainTempDir : FPath := ["tmp", "workdir"]

/-- Final outcome of a `main` run: the exception that escaped `main` (if
any), the filesystem after the `TemporaryDirectory` teardown, and the trace. -/
structure RunOut where
  exc : Option PyExc
  fs : FS
  events : List Event
deriving DecidableEq, Repr

/-- app.py lines 124-173, from the point where uploads are present and the
button was pressed: run the batch loop inside the temporary directory; on
scope exit — normal or exceptional — the directory and everything under it
is removed. -/
def pipelineMain (w : World) (videos : List (String × String)) (fs : FS) : RunOut :=
  let r := mainLoop w mainTempDir videos fs 0 none
  ⟨r.1, removeDirTree r.2.1 mainTempDir, r.2.2⟩

/- ## Concrete instantiations of the black-box collaborators

These are used to evaluate the model at concrete inputs (witnesses and
counterexamples).  Each is one possible behaviour of the external tools:
an always-succeeding transcoder that writes the requested files, a
transcoder that fails cleanly (non-zero exit, filesystem untouched) while
printing a diagnostic, a transcoder that fails after leaving a partial
output file behind, and a speech-to-text service that either answers or
reports a service-level error. -/

/-- Transcoder succeeds and writes the audio path and both output paths used
by the concrete batches below; service answers with a fixed SRT body. -/
def wAllOk : World where
  ffmpeg := fun _ fs =>
    ⟨0, fsWrite (fsWrite (fsWrite fs ["tmp", "workdir", "extracted_audio.wav"] "AUD")
          ["tmp", "workdir", "output_a.mp4"] "OUT1")
        ["tmp", "workdir", "output_output_a.mp4"] "OUT2", ""⟩
  stt := fun _ => .ok "1\n00:00:00,000 --> 00:00:01,000\nhi\n"

/-- Transcoder succeeds and writes the audio file; the speech-to-text
service fails (e.g. a rate limit), raising the client library's exception. -/
def wSvcErr : World where
  ffmpeg := fun _ fs => ⟨0, fsWrite fs ["tmp", "workdir", "extracted_audio.wav"] "AUD", "diag"⟩
  stt := fun _ => .error "rate limit"

/-- Transcoder always exits non-zero, leaving the filesystem unchanged, and
prints a diagnostic to the console (which `subprocess.run` does not capture). -/
def wFailClean : World where
  ffmpeg := fun _ fs => ⟨1, fs, "ffmpeg console diagnostic: no audio stream"⟩
  stt := fun _ => .error "unused"

/-- Transcoder exits non-zero after leaving a half-written audio file behind
(ffmpeg regularly leaves part-files on error). -/
def wFailPart : World where
  ffmpeg := fun _ fs => ⟨1, fsWrite fs ["tmp", "workdir", "extracted_audio.wav"] "part-file", "diag"⟩
  stt := fun _ => .error "unused"

/- ## Small filesystem lemma kit -/

theorem fsLookup_fsErase (fs : FS) (p q : FPath) :
    fsLookup (fsErase fs p) q = if q = p then none else fsLookup fs q := by
  induction fs with
  | nil => simp [fsErase, fsLookup]
  | cons e rest ih =>
      obtain ⟨r, c⟩ := e
      by_cases hrp : r = p
      · subst hrp
        by_cases hqp : q = r
        · subst hqp
          simp [fsErase, fsLookup, ih]
        · simp [fsErase, fsLookup, ih, hqp, Ne.symm hqp]
      · by_cases hrq : r = q
        · subst hrq
          simp [fsErase, fsLookup, hrp, Ne.symm hrp]
        · simp [fsErase, fsLookup, hrp, hrq, ih]

theorem fsLookup_fsWrite (fs : FS) (p q : FPath) (c : String) :
    fsLookup (fsWrite fs p c) q = if q = p then some c else fsLookup fs q := by
  by_cases h : q = p
  · simp [fsWrite, fsLookup, h, fsLookup_fsErase]
  · simp [fsWrite, fsLookup, h, Ne.symm h, fsLookup_fsErase]

theorem fsErase_fsErase (fs : FS) (p : FPath) :
    fsErase (fsErase fs p) p = fsErase fs p := by
  induction fs with
  | nil => simp [fsErase]
  | cons e rest ih =>
      obtain ⟨r, c⟩ := e
      by_cases hrp : r = p <;> simp [fsErase, hrp, ih]

theorem fsErase_fsWrite (fs : FS) (p : FPath) (c : String) :
    fsErase (fsWrite fs p c) p = fsErase fs p := by
  simp [fsWrite, fsErase, fsErase_fsErase]

theorem mem_removeDirTree (fs : FS) (dir : FPath) (p : FPath) (c : String)
    (h : (p, c) ∈ removeDirTree fs dir) : underDir dir p = false := by
  induction fs with
  | nil => simp [removeDirTree] at h
  | cons e rest ih =>
      obtain ⟨r, d⟩ := e
      rw [removeDirTree] at h
      by_cases hu : underDir dir r = true
      · rw [if_pos hu] at h
        exact ih h
      · rw [if_neg hu] at h
        rcases List.mem_cons.mp h with h1 | h1
        · have hp : p = r := congrArg Prod.fst h1
          subst hp
          simpa using hu
        · exact ih h1

/- ## Cleanup-block lemmas -/

theorem cleanupItem_event_mem (v a : FPath) (sv : Option FPath) (fs : FS) (e : Event)
    (h : e ∈ (cleanupItem v a sv fs).events) :
    (∃ p b, e = .removeAttempt p b) ∨ e = .logWarning := by
  unfold cleanupItem at h
  rcases hv : fsRemove fs v with _ | fs1 <;>
    simp only [hv, List.mem_cons, List.not_mem_nil, or_false] at h
  · rcases h with h1 | h1
    · exact .inl ⟨v, false, h1⟩
    · exact .inr h1
  · rcases ha : fsRemove fs1 a with _ | fs2 <;>
      simp only [ha, List.mem_cons, List.not_mem_nil, or_false] at h
    · rcases h with h1 | h1 | h1
      · exact .inl ⟨v, true, h1⟩
      · exact .inl ⟨a, false, h1⟩
      · exact .inr h1
    · rcases sv with _ | s <;>
        simp only [List.mem_cons, List.not_mem_nil, or_false] at h
      · rcases h with h1 | h1
        · exact .inl ⟨v, true, h1⟩
        · exact .inl ⟨a, true, h1⟩
      · rcases hs : fsRemove fs2 s with _ | fs3 <;>
          simp only [hs, List.mem_cons, List.not_mem_nil, or_false] at h
        · rcases h with h1 | h1 | h1 | h1
          · exact .inl ⟨v, true, h1⟩
          · exact .inl ⟨a, true, h1⟩
          · exact .inl ⟨s, false, h1⟩
          · exact .inr h1
        · rcases h with h1 | h1 | h1
          · exact .inl ⟨v, true, h1⟩
          · exact .inl ⟨a, true, h1⟩
          · exact .inl ⟨s, true, h1⟩

theorem cleanupItem_removeAttempt_mem (v a : FPath) (sv : Option FPath) (fs : FS)
    (p : FPath) (b : Bool)
    (h : Event.removeAttempt p b ∈ (cleanupItem v a sv fs).events) :
    p = v ∨ p = a ∨ sv = some p := by
  unfold cleanupItem at h
  rcases hv : fsRemove fs v with _ | fs1 <;>
    simp only [hv, List.mem_cons, List.not_mem_nil, or_false] at h
  · rcases h with h1 | h1
    · exact .inl (congrArg (fun x => match x with
        | Event.removeAttempt q _ => q | _ => v) h1)
    · exact absurd h1 (by simp)
  · rcases ha : fsRemove fs1 a with _ | fs2 <;>
      simp only [ha, List.mem_cons, List.not_mem_nil, or_false] at h
    · rcases h with h1 | h1 | h1
      · exact .inl (congrArg (fun x => match x with
          | Event.removeAttempt q _ => q | _ => v) h1)
      · exact .inr (.inl (congrArg (fun x => match x with
          | Event.removeAttempt q _ => q | _ => a) h1))
      · exact absurd h1 (by simp)
    · rcases sv with _ | s <;>
        simp only [List.mem_cons, List.not_mem_nil, or_false] at h
      · rcases h with h1 | h1
        · exact .inl (congrArg (fun x => match x with
            | Event.removeAttempt q _ => q | _ => v) h1)
        · exact .inr (.inl (congrArg (fun x => match x with
            | Event.removeAttempt q _ => q | _ => a) h1))
      · rcases hs : fsRemove fs2 s with _ | fs3 <;>
          simp only [hs, List.mem_cons, List.not_mem_nil, or_false] at h
        · rcases h with h1 | h1 | h1 | h1
          · exact .inl (congrArg (fun x => match x with
              | Event.removeAttempt q _ => q | _ => v) h1)
          · exact .inr (.inl (congrArg (fun x => match x with
              | Event.removeAttempt q _ => q | _ => a) h1))
          · exact .inr (.inr (congrArg some (congrArg (fun x => match x with
              | Event.removeAttempt q _ => q | _ => s) h1).symm))
          · exact absurd h1 (by simp)
        · rcases h with h1 | h1 | h1
          · exact .inl (congrArg (fun x => match x with
              | Event.removeAttempt q _ => q | _ => v) h1)
          · exact .inr (.inl (congrArg (fun x => match x with
              | Event.removeAttempt q _ => q | _ => a) h1))
          · exact .inr (.inr (congrArg some (congrArg (fun x => match x with
              | Event.removeAttempt q _ => q | _ => s) h1).symm))

theorem cleanupItem_exc_some (v a : FPath) (sv : Option FPath) (fs : FS)
    (h : (cleanupItem v a sv fs).exc ≠ none) :
    (cleanupItem v a sv fs).exc = some .nameError ∧ sv = none := by
  unfold cleanupItem at h ⊢
  rcases hv : fsRemove fs v with _ | fs1 <;> simp only [hv] at h ⊢
  · simp at h
  · rcases ha : fsRemove fs1 a with _ | fs2 <;> simp only [ha] at h ⊢
    · simp at h
    · rcases sv with _ | s
      · exact ⟨rfl, rfl⟩
      · rcases hs : fsRemove fs2 s with _ | fs3 <;> simp only [hs] at h <;> simp at h

theorem cleanupItem_exc_none_of_sv (v a : FPath) (s : FPath) (fs : FS) :
    (cleanupItem v a (some s) fs).exc = none := by
  unfold cleanupItem
  rcases hv : fsRemove fs v with _ | fs1
  · simp [hv]
  · rcases ha : fsRemove fs1 a with _ | fs2
    · simp [hv, ha]
    · rcases hs : fsRemove fs2 s with _ | fs3
      · simp [hv, ha, hs]
      · simp [hv, ha, hs]

theorem cleanupItem_exc_none_of_no_audio (v a : FPath) (sv : Option FPath) (fs : FS)
    (h : fsLookup (fsErase fs v) a = none) :
    (cleanupItem v a sv fs).exc = none := by
  unfold cleanupItem
  rcases hv : fsRemove fs v with _ | fs1
  · simp [hv]
  · have hfs1 : fs1 = fsErase fs v := by
      by_cases hl : (fsLookup fs v).isSome
      · simp [fsRemove, hl] at hv
        exact hv.symm
      · simp [fsRemove, hl] at hv
    have hra : fsRemove fs1 a = none := by
      simp [fsRemove, hfs1, h]
    simp [hv, hra]

theorem extract_eq_ok (w : World) (v o : FPath) (fs : FS)
    (h : (w.ffmpeg (extractCommand v o) fs).exitCode = 0) :
    extract_audio_from_video w v o fs =
      ⟨none, (w.ffmpeg (extractCommand v o) fs).newFs, [.proc (extractCommand v o)]⟩ := by
  unfold extract_audio_from_video
  rw [if_pos h]

theorem extract_eq_fail (w : World) (v o : FPath) (fs : FS)
    (h : ¬ (w.ffmpeg (extractCommand v o) fs).exitCode = 0) :
    extract_audio_from_video w v o fs =
      ⟨some (.osError "Failed to extract audio from video"
          (.calledProcessError (extractCommand v o) (w.ffmpeg (extractCommand v o) fs).exitCode)),
       (w.ffmpeg (extractCommand v o) fs).newFs, [.proc (extractCommand v o)]⟩ := by
  unfold extract_audio_from_video
  rw [if_neg h]

theorem embed_eq_ok (w : World) (v s o : FPath) (fs : FS)
    (h : (w.ffmpeg (embedCommand v s o) fs).exitCode = 0) :
    embed_subtitle_in_video w v s o fs =
      ⟨none, (w.ffmpeg (embedCommand v s o) fs).newFs, [.proc (embedCommand v s o)]⟩ := by
  unfold embed_subtitle_in_video
  rw [if_pos h]

theorem embed_eq_fail (w : World) (v s o : FPath) (fs : FS)
    (h : ¬ (w.ffmpeg (embedCommand v s o) fs).exitCode = 0) :
    embed_subtitle_in_video w v s o fs =
      ⟨some (.osError "Failed to embed subtitles in video"
          (.calledProcessError (embedCommand v s o) (w.ffmpeg (embedCommand v s o) fs).exitCode)),
       (w.ffmpeg (embedCommand v s o) fs).newFs, [.proc (embedCommand v s o)]⟩ := by
  unfold embed_subtitle_in_video
  rw [if_neg h]

theorem transcribe_eq_missing (w : World) (tmp : Nat) (a : FPath) (nm : String) (fs : FS)
    (h : fsLookup fs a = none) :
    transcribe_and_save_srt w tmp a nm fs =
      ⟨.error (.fileNotFoundError ("Audio file " ++ renderPath a ++ " does not exist")),
       fs, tmp, []⟩ := by
  unfold transcribe_and_save_srt
  simp only [h]

theorem transcribe_eq_svcerr (w : World) (tmp : Nat) (a : FPath) (nm : String) (fs : FS)
    (au m : String) (ha : fsLookup fs a = some au) (hm : w.stt au = .error m) :
    transcribe_and_save_srt w tmp a nm fs =
      ⟨.error (.serviceError m), fs, tmp, [.netCall au]⟩ := by
  unfold transcribe_and_save_srt
  simp only [ha, hm]

theorem transcribe_eq_ok (w : World) (tmp : Nat) (a : FPath) (nm : String) (fs : FS)
    (au t : String) (ha : fsLookup fs a = some au) (ht : w.stt au = .ok t) :
    transcribe_and_save_srt w tmp a nm fs =
      ⟨.ok (mktempSrt tmp), fsWrite fs (mktempSrt tmp) t, tmp + 1, [.netCall au]⟩ := by
  unfold transcribe_and_save_srt
  simp only [ha, ht]

theorem itemBody_cases (w : World) (temp : FPath) (name : String) (fs0 : FS) (tmp : Nat)
    (sv : Option FPath) (video audioP outP : FPath) (cmd1 : List String) (r : ProcOutcome)
    (hV : video = pathJoin temp name) (hA : audioP = pathJoin temp "extracted_audio.wav")
    (hO : outP = pathJoin temp ("output_" ++ name)) (hC : cmd1 = extractCommand video audioP)
    (hR : r = w.ffmpeg cmd1 fs0) :
    (¬ r.exitCode = 0 ∧
      itemBody w temp name fs0 tmp sv =
        ⟨some (.osError "Failed to extract audio from video"
            (.calledProcessError cmd1 r.exitCode)), r.newFs, tmp, sv, [.proc cmd1]⟩) ∨
    (r.exitCode = 0 ∧ fsLookup r.newFs audioP = none ∧
      itemBody w temp name fs0 tmp sv =
        ⟨some (.fileNotFoundError ("Audio file " ++ renderPath audioP ++ " does not exist")),
         r.newFs, tmp, sv, [.proc cmd1]⟩) ∨
    (∃ a m, r.exitCode = 0 ∧ fsLookup r.newFs audioP = some a ∧ w.stt a = .error m ∧
      itemBody w temp name fs0 tmp sv =
        ⟨some (.serviceError m), r.newFs, tmp, sv, [.proc cmd1, .netCall a]⟩) ∨
    (∃ a t r2, r.exitCode = 0 ∧ fsLookup r.newFs audioP = some a ∧ w.stt a = .ok t ∧
      r2 = w.ffmpeg (embedCommand video (mktempSrt tmp) outP) (fsWrite r.newFs (mktempSrt tmp) t) ∧
      ((¬ r2.exitCode = 0 ∧
        itemBody w temp name fs0 tmp sv =
          ⟨some (.osError "Failed to embed subtitles in video"
              (.calledProcessError (embedCommand video (mktempSrt tmp) outP) r2.exitCode)),
           r2.newFs, tmp + 1, some (mktempSrt tmp),
           [.proc cmd1, .netCall a, .proc (embedCommand video (mktempSrt tmp) outP)]⟩) ∨
      (r2.exitCode = 0 ∧ fsLookup r2.newFs outP = none ∧
        itemBody w temp name fs0 tmp sv =
          ⟨some (.fileNotFoundError ("No such file or directory: " ++ renderPath outP)),
           r2.newFs, tmp + 1, some (mktempSrt tmp),
           [.proc cmd1, .netCall a, .proc (embedCommand video (mktempSrt tmp) outP)]⟩) ∨
      (∃ oc, r2.exitCode = 0 ∧ fsLookup r2.newFs outP = some oc ∧
        itemBody w temp name fs0 tmp sv =
          ⟨none, r2.newFs, tmp + 1, some (mktempSrt tmp),
           [.proc cmd1, .netCall a, .proc (embedCommand video (mktempSrt tmp) outP),
            .download outP, .preview outP]⟩))) := by
  subst hV hA hO hC hR
  by_cases hr0 : (w.ffmpeg (extractCommand (pathJoin temp name)
      (pathJoin temp "extracted_audio.wav")) fs0).exitCode = 0
  · rcases hl : fsLookup (w.ffmpeg (extractCommand (pathJoin temp name)
        (pathJoin temp "extracted_audio.wav")) fs0).newFs
        (pathJoin temp "extracted_audio.wav") with _ | a
    · refine .inr (.inl ⟨hr0, rfl, ?_⟩)
      unfold itemBody
      simp only [extract_eq_ok w _ _ _ hr0, transcribe_eq_missing w _ _ _ _ hl]
      try rfl
    · rcases hst : w.stt a with m | t
      · refine .inr (.inr (.inl ⟨a, m, hr0, rfl, hst, ?_⟩))
        unfold itemBody
        simp only [extract_eq_ok w _ _ _ hr0, transcribe_eq_svcerr w _ _ _ _ _ _ hl hst]
        try rfl
      · by_cases hr2 : (w.ffmpeg (embedCommand (pathJoin temp name) (mktempSrt tmp)
            (pathJoin temp ("output_" ++ name)))
            (fsWrite (w.ffmpeg (extractCommand (pathJoin temp name)
              (pathJoin temp "extracted_audio.wav")) fs0).newFs (mktempSrt tmp) t)).exitCode = 0
        · rcases ho : fsLookup (w.ffmpeg (embedCommand (pathJoin temp name) (mktempSrt tmp)
              (pathJoin temp ("output_" ++ name)))
              (fsWrite (w.ffmpeg (extractCommand (pathJoin temp name)
                (pathJoin temp "extracted_audio.wav")) fs0).newFs (mktempSrt tmp) t)).newFs
              (pathJoin temp ("output_" ++ name)) with _ | oc
          · refine .inr (.inr (.inr ⟨a, t, _, hr0, rfl, hst, rfl, .inr (.inl ⟨hr2, ho, ?_⟩)⟩))
            unfold itemBody
            simp only [extract_eq_ok w _ _ _ hr0, transcribe_eq_ok w _ _ _ _ _ _ hl hst,
              embed_eq_ok w _ _ _ _ hr2, ho]
            try rfl
          · refine .inr (.inr (.inr ⟨a, t, _, hr0, rfl, hst, rfl, .inr (.inr ⟨oc, hr2, ho, ?_⟩)⟩))
            unfold itemBody
            simp only [extract_eq_ok w _ _ _ hr0, transcribe_eq_ok w _ _ _ _ _ _ hl hst,
              embed_eq_ok w _ _ _ _ hr2, ho]
            try rfl
        · refine .inr (.inr (.inr ⟨a, t, _, hr0, rfl, hst, rfl, .inl ⟨hr2, ?_⟩⟩))
          unfold itemBody
          simp only [extract_eq_ok w _ _ _ hr0, transcribe_eq_ok w _ _ _ _ _ _ hl hst,
            embed_eq_fail w _ _ _ _ hr2]
          try rfl
  · refine .inl ⟨hr0, ?_⟩
    unfold itemBody
    simp only [extract_eq_fail w _ _ _ hr0]
    try rfl

/- ## Claim theorems -/

/-- Claim C2: for every audio path that does not reference an existing file,
`transcribe_and_save_srt` fails immediately with the missing-input error
(Python `FileNotFoundError`, the spec's `MissingInputError`), performs no
network call (no `netCall` event — the trace is empty), and leaves the
filesystem unchanged. -/
theorem c2_transcribe_missing_input (w : World) (tmp : Nat) (audio : FPath)
    (nm : String) (fs : FS) (h : fsLookup fs audio = none) :
    (transcribe_and_save_srt w tmp audio nm fs).res
        = .error (.fileNotFoundError ("Audio file " ++ renderPath audio ++ " does not exist")) ∧
    (∀ d, Event.netCall d ∉ (transcribe_and_save_srt w tmp audio nm fs).events) ∧
    (transcribe_and_save_srt w tmp audio nm fs).fs = fs := by
  rw [transcribe_eq_missing w tmp audio nm fs h]
  exact ⟨rfl, fun d => List.not_mem_nil _, rfl⟩

/-- Witness for C2 at a concrete input: an empty filesystem and the audio
path the orchestrator would use. -/
theorem c2_transcribe_missing_input_wit :
    fsLookup [] ["tmp", "workdir", "extracted_audio.wav"] = none ∧
    ((transcribe_and_save_srt wSvcErr 0 ["tmp", "workdir", "extracted_audio.wav"] "a.mp4" []).res
        = .error (.fileNotFoundError
            ("Audio file " ++ renderPath ["tmp", "workdir", "extracted_audio.wav"] ++ " does not exist")) ∧
     (∀ d, Event.netCall d ∉
        (transcribe_and_save_srt wSvcErr 0 ["tmp", "workdir", "extracted_audio.wav"] "a.mp4" []).events) ∧
     (transcribe_and_save_srt wSvcErr 0 ["tmp", "workdir", "extracted_audio.wav"] "a.mp4" []).fs = []) :=
  ⟨rfl, c2_transcribe_missing_input wSvcErr 0 ["tmp", "workdir", "extracted_audio.wav"] "a.mp4" [] rfl⟩

/-- Claim C3: whatever body the speech-to-text service returns, the subtitle
file the Transcriber writes holds exactly that body: re-reading the returned
path yields the service response unchanged. -/
theorem c3_srt_written_verbatim (w : World) (tmp : Nat) (audio : FPath) (nm : String)
    (fs : FS) (a t : String) (ha : fsLookup fs audio = some a) (ht : w.stt a = .ok t) :
    (transcribe_and_save_srt w tmp audio nm fs).res = .ok (mktempSrt tmp) ∧
    fsLookup (transcribe_and_save_srt w tmp audio nm fs).fs (mktempSrt tmp) = some t := by
  rw [transcribe_eq_ok w tmp audio nm fs a t ha ht]
  refine ⟨rfl, ?_⟩
  rw [fsLookup_fsWrite]
  simp

/-- Witness for C3: a concrete audio file and service response. -/
theorem c3_srt_written_verbatim_wit :
    fsLookup [(["tmp", "workdir", "extracted_audio.wav"], "AUD")]
        ["tmp", "workdir", "extracted_audio.wav"] = some "AUD" ∧
    wAllOk.stt "AUD" = .ok "1\n00:00:00,000 --> 00:00:01,000\nhi\n" ∧
    ((transcribe_and_save_srt wAllOk 0 ["tmp", "workdir", "extracted_audio.wav"] "a.mp4"
        [(["tmp", "workdir", "extracted_audio.wav"], "AUD")]).res = .ok (mktempSrt 0) ∧
     fsLookup (transcribe_and_save_srt wAllOk 0 ["tmp", "workdir", "extracted_audio.wav"] "a.mp4"
        [(["tmp", "workdir", "extracted_audio.wav"], "AUD")]).fs (mktempSrt 0)
        = some "1\n00:00:00,000 --> 00:00:01,000\nhi\n") :=
  ⟨rfl, rfl,
   c3_srt_written_verbatim wAllOk 0 ["tmp", "workdir", "extracted_audio.wav"] "a.mp4"
     [(["tmp", "workdir", "extracted_audio.wav"], "AUD")] "AUD"
     "1\n00:00:00,000 --> 00:00:01,000\nhi\n" rfl rfl⟩

/-- Claim C4: the argument vector handed to the external transcoder is
exactly `ffmpeg -i <input> -q:a 0 -map a <output>` for audio extraction and
exactly `ffmpeg -i <input> -vf subtitles=<subtitle_path> <output>` for
subtitle embedding, for every choice of paths. -/
theorem c4_ffmpeg_argv_exact (w : World) (v o s : FPath) (fs : FS) :
    (extract_audio_from_video w v o fs).events
      = [Event.proc ["ffmpeg", "-i", renderPath v, "-q:a", "0", "-map", "a", renderPath o]] ∧
    (embed_subtitle_in_video w v s o fs).events
      = [Event.proc ["ffmpeg", "-i", renderPath v, "-vf",
          "subtitles=" ++ renderPath s, renderPath o]] := by
  constructor
  · by_cases h : (w.ffmpeg (extractCommand v o) fs).exitCode = 0
    · rw [extract_eq_ok w v o fs h]
      rfl
    · rw [extract_eq_fail w v o fs h]
      rfl
  · by_cases h : (w.ffmpeg (embedCommand v s o) fs).exitCode = 0
    · rw [embed_eq_ok w v s o fs h]
      rfl
    · rw [embed_eq_fail w v s o fs h]
      rfl

/-- Claim C10: the `input_video_name` argument of `transcribe_and_save_srt`
has no effect whatsoever — two invocations differing only in that argument
return identical results (same exception or subtitle path, same filesystem,
same counter, same trace, hence the same network request); in particular the
subtitle file's name is not derived from the video's name. -/
theorem c10_video_name_has_no_effect (w : World) (tmp : Nat) (audio : FPath)
    (n1 n2 : String) (fs : FS) :
    transcribe_and_save_srt w tmp audio n1 fs = transcribe_and_save_srt w tmp audio n2 fs := rfl

/-- Claim C6 (amended): when the external transcoder exits non-zero, the
extraction operation raises `OSError("Failed to extract audio from video")`
(and embedding `OSError("Failed to embed subtitles in video")`) chained to a
`CalledProcessError` that records only the command vector and the exit
status; the process's diagnostic output is not captured and not carried. -/
theorem c6_amended_error_payload (w : World) (v s o : FPath) (fs : FS) :
    (¬ (w.ffmpeg (extractCommand v o) fs).exitCode = 0 →
      (extract_audio_from_video w v o fs).exc
        = some (.osError "Failed to extract audio from video"
            (.calledProcessError (extractCommand v o)
              (w.ffmpeg (extractCommand v o) fs).exitCode))) ∧
    (¬ (w.ffmpeg (embedCommand v s o) fs).exitCode = 0 →
      (embed_subtitle_in_video w v s o fs).exc
        = some (.osError "Failed to embed subtitles in video"
            (.calledProcessError (embedCommand v s o)
              (w.ffmpeg (embedCommand v s o) fs).exitCode))) := by
  constructor
  · intro h
    rw [extract_eq_fail w v o fs h]
  · intro h
    rw [embed_eq_fail w v s o fs h]

/-- Witness for the amended C6 at a concrete failing transcoder. -/
theorem c6_amended_error_payload_wit :
    (¬ (wFailClean.ffmpeg (extractCommand ["tmp", "workdir", "a.mp4"]
        ["tmp", "workdir", "extracted_audio.wav"]) []).exitCode = 0) ∧
    (extract_audio_from_video wFailClean ["tmp", "workdir", "a.mp4"]
        ["tmp", "workdir", "extracted_audio.wav"] []).exc
      = some (.osError "Failed to extract audio from video"
          (.calledProcessError (extractCommand ["tmp", "workdir", "a.mp4"]
              ["tmp", "workdir", "extracted_audio.wav"])
            (wFailClean.ffmpeg (extractCommand ["tmp", "workdir", "a.mp4"]
              ["tmp", "workdir", "extracted_audio.wav"]) []).exitCode)) :=
  ⟨by decide,
   (c6_amended_error_payload wFailClean ["tmp", "workdir", "a.mp4"] ["tmp", "x.srt"]
      ["tmp", "workdir", "extracted_audio.wav"] []).1 (by decide)⟩

/-- Counterexample to C6 as stated: a transcoder run that fails while
printing a diagnostic to the console.  The raised exception is the fixed
`OSError` chained to a `CalledProcessError` holding the command and exit
status, and the process's diagnostic output appears nowhere among the
strings the exception carries — `subprocess.run(command, check=True)` was
called without output capture, so the diagnostic was never stored. -/
theorem c6_cex_diagnostic_not_carried :
    (wFailClean.ffmpeg (extractCommand ["tmp", "workdir", "a.mp4"]
        ["tmp", "workdir", "extracted_audio.wav"]) []).diagnostic
      = "ffmpeg console diagnostic: no audio stream" ∧
    (extract_audio_from_video wFailClean ["tmp", "workdir", "a.mp4"]
        ["tmp", "workdir", "extracted_audio.wav"] []).exc
      = some (.osError "Failed to extract audio from video"
          (.calledProcessError (extractCommand ["tmp", "workdir", "a.mp4"]
              ["tmp", "workdir", "extracted_audio.wav"]) 1)) ∧
    "ffmpeg console diagnostic: no audio stream" ∉
      excStrings (.osError "Failed to extract audio from video"
          (.calledProcessError (extractCommand ["tmp", "workdir", "a.mp4"]
              ["tmp", "workdir", "extracted_audio.wav"]) 1)) := by
  refine ⟨rfl, ?_, by decide⟩
  rw [extract_eq_fail wFailClean _ _ _ (by decide)]
  rfl

/- ## Orchestrator event lemmas -/

theorem processItem_event_mem (w : World) (temp : FPath) (name content : String)
    (fs : FS) (tmp : Nat) (sv : Option FPath) (e : Event)
    (he : e ∈ (processItem w temp name content fs tmp sv).events)
    (h1 : ∀ p b, e ≠ .removeAttempt p b) (h2 : e ≠ .logWarning)
    (h3 : ∀ m, e ≠ .stError m) :
    e ∈ (itemBody w temp name (fsWrite fs (pathJoin temp name) content) tmp sv).events := by
  unfold processItem at he
  rcases hbe : (itemBody w temp name (fsWrite fs (pathJoin temp name) content) tmp sv).exc
    with _ | ex <;> simp only [hbe] at he
  · rcases List.mem_append.mp he with h | h
    · exact h
    · rcases cleanupItem_event_mem _ _ _ _ _ h with ⟨p, b, hpb⟩ | hw
      · exact absurd hpb (h1 p b)
      · exact absurd hw h2
  · by_cases hos : isOSErr ex = true <;> simp only [hos, if_true, if_false] at he
    · rcases List.mem_append.mp he with h | h
      · rcases List.mem_append.mp h with h' | h'
        · exact h'
        · rcases List.mem_cons.mp h' with h'' | h''
          · exact absurd h'' (h3 _)
          · simp at h''
      · rcases cleanupItem_event_mem _ _ _ _ _ h with ⟨p, b, hpb⟩ | hw
        · exact absurd hpb (h1 p b)
        · exact absurd hw h2
    · exact he

theorem extractCommand_ne_embedCommand (v o v1 s1 o1 : FPath) :
    extractCommand v o ≠ embedCommand v1 s1 o1 := by
  intro h
  have := congrArg List.length h
  simp [extractCommand, embedCommand] at this

theorem pathJoin_mainTempDir_ne_mktempSrt (x : String) (n : Nat) :
    pathJoin mainTempDir x ≠ mktempSrt n := by
  intro h
  have := congrArg List.length h
  simp [pathJoin, mainTempDir, mktempSrt] at this

/-- Claim C5: for any item processed by the orchestrator, the speech-to-text
call happens only after the extraction process exited 0 (and the extracted
audio file is exactly what is sent), and the embedding process is invoked
only after both the extraction succeeded and the service answered; at the
moment the embedder runs, the subtitle artifact holds the service response
and the audio artifact is still present.  Hence the item's pipeline runs
extract → transcribe → embed in strict sequence and stops at the first
failing stage. -/
theorem c5_stage_sequencing (w : World) (name content : String) (fs : FS)
    (tmp : Nat) (sv : Option FPath) :
    let video := pathJoin mainTempDir name
    let audioP := pathJoin mainTempDir "extracted_audio.wav"
    let outP := pathJoin mainTempDir ("output_" ++ name)
    let r := w.ffmpeg (extractCommand video audioP) (fsWrite fs video content)
    let s := processItem w mainTempDir name content fs tmp sv
    (∀ d, Event.netCall d ∈ s.events →
        r.exitCode = 0 ∧ fsLookup r.newFs audioP = some d) ∧
    (∀ c, Event.proc c ∈ s.events → (∃ v1 s1 o1, c = embedCommand v1 s1 o1) →
        r.exitCode = 0 ∧ ∃ a t,
          fsLookup r.newFs audioP = some a ∧ w.stt a = Except.ok t ∧
          c = embedCommand video (mktempSrt tmp) outP ∧
          fsLookup (fsWrite r.newFs (mktempSrt tmp) t) (mktempSrt tmp) = some t ∧
          fsLookup (fsWrite r.newFs (mktempSrt tmp) t) audioP = some a) := by
  intro video audioP outP r s
  have hcases := itemBody_cases w mainTempDir name (fsWrite fs video content) tmp sv
    video audioP outP (extractCommand video audioP) r rfl rfl rfl rfl rfl
  constructor
  · intro d hd
    have hd' := processItem_event_mem w mainTempDir name content fs tmp sv _ hd
      (fun p b h => Event.noConfusion h) (fun h => Event.noConfusion h)
      (fun m h => Event.noConfusion h)
    rcases hcases with ⟨hr, hB⟩ | ⟨hr, hla, hB⟩ | ⟨a, m, hr, hla, hst, hB⟩ |
      ⟨a, t, r2, hr, hla, hst, hr2, hinner⟩
    · rw [hB] at hd'
      simp at hd'
    · rw [hB] at hd'
      simp at hd'
    · rw [hB] at hd'
      simp at hd'
      exact ⟨hr, hd' ▸ hla⟩
    · rcases hinner with ⟨hr2f, hB⟩ | ⟨hr2ok, hout, hB⟩ | ⟨oc, hr2ok, hout, hB⟩ <;>
        rw [hB] at hd' <;> simp at hd' <;> exact ⟨hr, hd' ▸ hla⟩
  · intro c hc hshape
    have hc' := processItem_event_mem w mainTempDir name content fs tmp sv _ hc
      (fun p b h => Event.noConfusion h) (fun h => Event.noConfusion h)
      (fun m h => Event.noConfusion h)
    obtain ⟨v1, s1, o1, hcsh⟩ := hshape
    rcases hcases with ⟨hr, hB⟩ | ⟨hr, hla, hB⟩ | ⟨a, m, hr, hla, hst, hB⟩ |
      ⟨a, t, r2, hr, hla, hst, hr2, hinner⟩
    · rw [hB] at hc'
      simp at hc'
      exact absurd (hc' ▸ hcsh) (extractCommand_ne_embedCommand _ _ _ _ _)
    · rw [hB] at hc'
      simp at hc'
      exact absurd (hc' ▸ hcsh) (extractCommand_ne_embedCommand _ _ _ _ _)
    · rw [hB] at hc'
      simp at hc'
      exact absurd (hc' ▸ hcsh) (extractCommand_ne_embedCommand _ _ _ _ _)
    · have hmain : c = embedCommand video (mktempSrt tmp) outP →
          r.exitCode = 0 ∧ ∃ a' t',
            fsLookup r.newFs audioP = some a' ∧ w.stt a' = Except.ok t' ∧
            c = embedCommand video (mktempSrt tmp) outP ∧
            fsLookup (fsWrite r.newFs (mktempSrt tmp) t') (mktempSrt tmp) = some t' ∧
            fsLookup (fsWrite r.newFs (mktempSrt tmp) t') audioP = some a' := fun hce =>
        ⟨hr, a, t, hla, hst, hce, by rw [fsLookup_fsWrite]; simp,
         by rw [fsLookup_fsWrite, if_neg (pathJoin_mainTempDir_ne_mktempSrt _ _)]; exact hla⟩
      rcases hinner with ⟨hr2f, hB⟩ | ⟨hr2ok, hout, hB⟩ | ⟨oc, hr2ok, hout, hB⟩ <;>
          rw [hB] at hc' <;> simp at hc' <;>
        rcases hc' with hce | hce
      · exact absurd (hce ▸ hcsh) (extractCommand_ne_embedCommand _ _ _ _ _)
      · exact hmain hce
      · exact absurd (hce ▸ hcsh) (extractCommand_ne_embedCommand _ _ _ _ _)
      · exact hmain hce
      · exact absurd (hce ▸ hcsh) (extractCommand_ne_embedCommand _ _ _ _ _)
      · exact hmain hce

/-- Witness for C5: a fully successful concrete run in which the embed
process event occurs, instantiating the sequencing theorem. -/
theorem c5_stage_sequencing_wit :
    Event.proc (embedCommand (pathJoin mainTempDir "a.mp4") (mktempSrt 0)
        (pathJoin mainTempDir ("output_" ++ "a.mp4")))
      ∈ (processItem wAllOk mainTempDir "a.mp4" "A" [] 0 none).events ∧
    ((wAllOk.ffmpeg (extractCommand (pathJoin mainTempDir "a.mp4")
        (pathJoin mainTempDir "extracted_audio.wav"))
        (fsWrite [] (pathJoin mainTempDir "a.mp4") "A")).exitCode = 0 ∧
     ∃ a t,
       fsLookup (wAllOk.ffmpeg (extractCommand (pathJoin mainTempDir "a.mp4")
            (pathJoin mainTempDir "extracted_audio.wav"))
            (fsWrite [] (pathJoin mainTempDir "a.mp4") "A")).newFs
          (pathJoin mainTempDir "extracted_audio.wav") = some a ∧
       wAllOk.stt a = Except.ok t ∧
       embedCommand (pathJoin mainTempDir "a.mp4") (mktempSrt 0)
            (pathJoin mainTempDir ("output_" ++ "a.mp4"))
         = embedCommand (pathJoin mainTempDir "a.mp4") (mktempSrt 0)
            (pathJoin mainTempDir ("output_" ++ "a.mp4")) ∧
       fsLookup (fsWrite (wAllOk.ffmpeg (extractCommand (pathJoin mainTempDir "a.mp4")
            (pathJoin mainTempDir "extracted_audio.wav"))
            (fsWrite [] (pathJoin mainTempDir "a.mp4") "A")).newFs (mktempSrt 0) t)
          (mktempSrt 0) = some t ∧
       fsLookup (fsWrite (wAllOk.ffmpeg (extractCommand (pathJoin mainTempDir "a.mp4")
            (pathJoin mainTempDir "extracted_audio.wav"))
            (fsWrite [] (pathJoin mainTempDir "a.mp4") "A")).newFs (mktempSrt 0) t)
          (pathJoin mainTempDir "extracted_audio.wav") = some a) :=
  ⟨by decide,
   (c5_stage_sequencing wAllOk "a.mp4" "A" [] 0 none).2 _ (by decide) ⟨_, _, _, rfl⟩⟩

/-- Claim C1 (amended): every pipeline-stage failure of the `OSError`
family is caught at the per-item boundary and reported via `st.error`
naming the item and the failure: a failing extraction, a missing-audio
transcription failure, and a failing embedding each produce the item's
error message, with no hypotheses on the black-box collaborators.
Moreover no such stage failure ever escapes the per-item boundary: the
only exceptions that can escape an item are a transcription *service*
error (uncaught, unreported, skipping cleanup — see the counterexample)
and the cleanup block's `NameError` (which can follow an already-caught
and already-reported failure when no transcription has yet succeeded in
the run, as claim C7's counterexample shows); and whenever the per-item
boundary raises nothing, the loop provably continues with the remaining
items. -/
theorem c1_amended_isolation (w : World) (name content : String) (fs : FS)
    (tmp : Nat) (sv : Option FPath) (rest : List (String × String)) :
    (¬ (w.ffmpeg (extractCommand (pathJoin mainTempDir name)
          (pathJoin mainTempDir "extracted_audio.wav"))
          (fsWrite fs (pathJoin mainTempDir name) content)).exitCode = 0 →
      Event.stError ("Error processing " ++ name ++ ": " ++ "Failed to extract audio from video")
        ∈ (processItem w mainTempDir name content fs tmp sv).events) ∧
    ((w.ffmpeg (extractCommand (pathJoin mainTempDir name)
          (pathJoin mainTempDir "extracted_audio.wav"))
          (fsWrite fs (pathJoin mainTempDir name) content)).exitCode = 0 →
      fsLookup (w.ffmpeg (extractCommand (pathJoin mainTempDir name)
          (pathJoin mainTempDir "extracted_audio.wav"))
          (fsWrite fs (pathJoin mainTempDir name) content)).newFs
        (pathJoin mainTempDir "extracted_audio.wav") = none →
      Event.stError ("Error processing " ++ name ++ ": "
          ++ ("Audio file " ++ renderPath (pathJoin mainTempDir "extracted_audio.wav")
              ++ " does not exist"))
        ∈ (processItem w mainTempDir name content fs tmp sv).events) ∧
    (∀ a t, (w.ffmpeg (extractCommand (pathJoin mainTempDir name)
          (pathJoin mainTempDir "extracted_audio.wav"))
          (fsWrite fs (pathJoin mainTempDir name) content)).exitCode = 0 →
      fsLookup (w.ffmpeg (extractCommand (pathJoin mainTempDir name)
          (pathJoin mainTempDir "extracted_audio.wav"))
          (fsWrite fs (pathJoin mainTempDir name) content)).newFs
        (pathJoin mainTempDir "extracted_audio.wav") = some a →
      w.stt a = Except.ok t →
      ¬ (w.ffmpeg (embedCommand (pathJoin mainTempDir name) (mktempSrt tmp)
          (pathJoin mainTempDir ("output_" ++ name)))
          (fsWrite (w.ffmpeg (extractCommand (pathJoin mainTempDir name)
              (pathJoin mainTempDir "extracted_audio.wav"))
              (fsWrite fs (pathJoin mainTempDir name) content)).newFs
            (mktempSrt tmp) t)).exitCode = 0 →
      Event.stError ("Error processing " ++ name ++ ": " ++ "Failed to embed subtitles in video")
        ∈ (processItem w mainTempDir name content fs tmp sv).events) ∧
    (∀ e, (processItem w mainTempDir name content fs tmp sv).exc = some e →
      (∃ m, e = PyExc.serviceError m) ∨ e = PyExc.nameError) ∧
    ((processItem w mainTempDir name content fs tmp sv).exc = none →
      (mainLoop w mainTempDir ((name, content) :: rest) fs tmp sv).1
        = (mainLoop w mainTempDir rest
            (processItem w mainTempDir name content fs tmp sv).fs
            (processItem w mainTempDir name content fs tmp sv).tmp
            (processItem w mainTempDir name content fs tmp sv).sv).1) := by
  have hcases := itemBody_cases w mainTempDir name
    (fsWrite fs (pathJoin mainTempDir name) content) tmp sv
    (pathJoin mainTempDir name) (pathJoin mainTempDir "extracted_audio.wav")
    (pathJoin mainTempDir ("output_" ++ name))
    (extractCommand (pathJoin mainTempDir name) (pathJoin mainTempDir "extracted_audio.wav"))
    (w.ffmpeg (extractCommand (pathJoin mainTempDir name)
      (pathJoin mainTempDir "extracted_audio.wav"))
      (fsWrite fs (pathJoin mainTempDir name) content)) rfl rfl rfl rfl rfl
  refine ⟨?_, ?_, ?_, ?_, ?_⟩
  · intro hx
    rcases hcases with ⟨_, hB⟩ | ⟨hr, _, _⟩ | ⟨a, m, hr, _⟩ | ⟨a, t, r2, hr, _⟩ <;>
      try exact absurd hr hx
    unfold processItem
    simp only [hB, isOSErr, if_true]
    simp [excMessage]
  · intro hr0 hla
    rcases hcases with ⟨hx, _⟩ | ⟨_, _, hB⟩ | ⟨a, m, _, hla2, _, _⟩ |
      ⟨a, t, r2, _, hla2, _, _, _⟩
    · exact absurd hr0 hx
    · unfold processItem
      simp only [hB, isOSErr, if_true]
      simp [excMessage]
    · rw [hla] at hla2
      exact Option.noConfusion hla2
    · rw [hla] at hla2
      exact Option.noConfusion hla2
  · intro a t hr0 hla hst hemb
    rcases hcases with ⟨hx, _⟩ | ⟨_, hla2, _⟩ | ⟨a2, m, _, hla2, hst2, _⟩ |
      ⟨a2, t2, r2, _, hla2, hst2, hr2eq, hinner⟩
    · exact absurd hr0 hx
    · rw [hla] at hla2
      exact Option.noConfusion hla2
    · have ha : a2 = a := Option.some.inj (hla2.symm.trans hla)
      subst ha
      rw [hst] at hst2
      exact Except.noConfusion hst2
    · have ha : a2 = a := Option.some.inj (hla2.symm.trans hla)
      subst ha
      rw [hst] at hst2
      have ht : t = t2 := Except.ok.inj hst2
      subst ht
      subst hr2eq
      rcases hinner with ⟨hr2f, hB⟩ | ⟨hr2ok, _, hB⟩ | ⟨oc, hr2ok, _, hB⟩
      · unfold processItem
        simp only [hB, isOSErr, if_true]
        simp [excMessage]
      · exact absurd hr2ok hemb
      · exact absurd hr2ok hemb
  · intro e he
    unfold processItem at he
    rcases hbe : (itemBody w mainTempDir name
        (fsWrite fs (pathJoin mainTempDir name) content) tmp sv).exc with _ | ex
    · simp only [hbe] at he
      have h2 := cleanupItem_exc_some _ _ _ _ (by rw [he]; exact Option.some_ne_none e)
      rw [he] at h2
      exact .inr (Option.some.inj h2.1)
    · by_cases hos : isOSErr ex = true
      · simp only [hbe, hos, if_true] at he
        have h2 := cleanupItem_exc_some _ _ _ _ (by rw [he]; exact Option.some_ne_none e)
        rw [he] at h2
        exact .inr (Option.some.inj h2.1)
      · simp only [hbe, hos, if_false] at he
        have hee : ex = e := Option.some.inj he
        subst hee
        rcases hcases with ⟨_, hB⟩ | ⟨_, _, hB⟩ | ⟨a, m, _, _, _, hB⟩ |
          ⟨a, t2, r2, _, _, _, _, hinner⟩
        · rw [hB] at hbe
          have h3 := Option.some.inj hbe
          rw [← h3] at hos
          exact absurd rfl hos
        · rw [hB] at hbe
          have h3 := Option.some.inj hbe
          rw [← h3] at hos
          exact absurd rfl hos
        · rw [hB] at hbe
          have h3 := Option.some.inj hbe
          exact .inl ⟨m, h3.symm⟩
        · rcases hinner with ⟨_, hB⟩ | ⟨_, _, hB⟩ | ⟨oc, _, _, hB⟩
          · rw [hB] at hbe
            have h3 := Option.some.inj hbe
            rw [← h3] at hos
            exact absurd rfl hos
          · rw [hB] at hbe
            have h3 := Option.some.inj hbe
            rw [← h3] at hos
            exact absurd rfl hos
          · rw [hB] at hbe
            exact Option.noConfusion hbe
  · intro hexc
    rw [mainLoop]
    simp only [hexc]

/-- Counterexample to C1 as stated: a batch of two items where the first
item's transcription stage fails with a service error (e.g. a rate limit).
The `except FileNotFoundError` / `except OSError` handlers do not catch the
speech-to-text client's exception, so the batch aborts: the run ends with
the uncaught service error, no `st.error` message is shown for the failed
item, and the trace ends at the first item's network call — the second item
is never processed (no further process invocation, no report, nothing). -/
theorem c1_cex_service_error_aborts_batch :
    pipelineMain wSvcErr [("a.mp4", "A"), ("b.mp4", "B")] []
      = ⟨some (.serviceError "rate limit"), [],
         [.proc (extractCommand (pathJoin mainTempDir "a.mp4")
            (pathJoin mainTempDir "extracted_audio.wav")),
          .netCall "AUD"]⟩ := by
  decide

/-- Witness for the amended C1: a concrete world whose transcoder fails
cleanly on the first item; the extraction failure is reported with the
item's name, the per-item boundary raises nothing, and the loop continues
to the second item. -/
theorem c1_amended_isolation_wit :
    (¬ (wFailClean.ffmpeg (extractCommand (pathJoin mainTempDir "a.mp4")
          (pathJoin mainTempDir "extracted_audio.wav"))
          (fsWrite [] (pathJoin mainTempDir "a.mp4") "A")).exitCode = 0) ∧
    Event.stError ("Error processing " ++ "a.mp4" ++ ": " ++ "Failed to extract audio from video")
      ∈ (processItem wFailClean mainTempDir "a.mp4" "A" [] 0 none).events ∧
    ((processItem wFailClean mainTempDir "a.mp4" "A" [] 0 none).exc = none ∧
     (mainLoop wFailClean mainTempDir [("a.mp4", "A"), ("b.mp4", "B")] [] 0 none).1
       = (mainLoop wFailClean mainTempDir [("b.mp4", "B")]
           (processItem wFailClean mainTempDir "a.mp4" "A" [] 0 none).fs
           (processItem wFailClean mainTempDir "a.mp4" "A" [] 0 none).tmp
           (processItem wFailClean mainTempDir "a.mp4" "A" [] 0 none).sv).1) :=
  ⟨by decide,
   (c1_amended_isolation wFailClean "a.mp4" "A" [] 0 none [("b.mp4", "B")]).1 (by decide),
   by decide,
   (c1_amended_isolation wFailClean "a.mp4" "A" [] 0 none [("b.mp4", "B")]).2.2.2.2 (by decide)⟩

/-- Claim C7 (amended): the cleanup block attempts deletions in the order
input, audio, subtitle, stopping at the first failing `os.remove`; a failing
removal is logged as a warning and — whenever a subtitle path has been
assigned at some point in the run — the block raises nothing.  However the
only possible uncaught error is real: when no transcription has yet
succeeded (`subtitle_file_path` unbound) and the first two removals succeed,
evaluating the unbound variable raises an uncaught `NameError`. -/
theorem c7_amended_cleanup (v a : FPath) (sv : Option FPath) (fs : FS) :
    ((∃ s, sv = some s) → (cleanupItem v a sv fs).exc = none) ∧
    (∀ e, (cleanupItem v a sv fs).exc = some e → e = .nameError ∧ sv = none) ∧
    (fsRemove fs v = none →
      (cleanupItem v a sv fs).events = [.removeAttempt v false, .logWarning]) ∧
    (∀ p, Event.removeAttempt p false ∈ (cleanupItem v a sv fs).events →
      Event.logWarning ∈ (cleanupItem v a sv fs).events) := by
  refine ⟨?_, ?_, ?_, ?_⟩
  · rintro ⟨s, rfl⟩
    exact cleanupItem_exc_none_of_sv v a s fs
  · intro e he
    have h := cleanupItem_exc_some v a sv fs (by rw [he]; exact Option.some_ne_none e)
    rw [he] at h
    exact ⟨Option.some.inj h.1, h.2⟩
  · intro h
    unfold cleanupItem
    simp only [h]
  · intro p hp
    unfold cleanupItem at hp ⊢
    rcases hv : fsRemove fs v with _ | fs1 <;>
      simp only [hv, List.mem_cons, List.not_mem_nil, or_false] at hp ⊢
    · simp
    · rcases ha : fsRemove fs1 a with _ | fs2 <;>
        simp only [ha, List.mem_cons, List.not_mem_nil, or_false] at hp ⊢
      · simp
      · rcases sv with _ | s
        · simp at hp
        · rcases hs : fsRemove fs2 s with _ | fs3 <;>
            simp only [hs, List.mem_cons, List.not_mem_nil, or_false] at hp ⊢
          · simp
          · simp at hp

/-- Witness for the amended C7: with a bound subtitle path the cleanup block
raises nothing. -/
theorem c7_amended_cleanup_wit :
    (cleanupItem (pathJoin mainTempDir "a.mp4")
      (pathJoin mainTempDir "extracted_audio.wav") (some (mktempSrt 0)) []).exc = none :=
  (c7_amended_cleanup (pathJoin mainTempDir "a.mp4")
    (pathJoin mainTempDir "extracted_audio.wav") (some (mktempSrt 0)) []).1 ⟨mktempSrt 0, rfl⟩

/-- Counterexample to C7 as stated: first batch item, extraction fails but
the transcoder leaves a half-written audio file behind.  The handler reports
the item; cleanup then removes the input and the partial audio file, and the
third `os.remove(subtitle_file_path)` evaluates a never-assigned variable:
an uncaught `NameError` (not an `OSError`) escapes, aborting the whole run —
the second item is never processed, as the full trace shows. -/
theorem c7_cex_cleanup_raises_uncaught :
    pipelineMain wFailPart [("a.mp4", "A"), ("b.mp4", "B")] []
      = ⟨some .nameError, [],
         [.proc (extractCommand (pathJoin mainTempDir "a.mp4")
            (pathJoin mainTempDir "extracted_audio.wav")),
          .stError ("Error processing " ++ "a.mp4" ++ ": Failed to extract audio from video"),
          .removeAttempt (pathJoin mainTempDir "a.mp4") true,
          .removeAttempt (pathJoin mainTempDir "extracted_audio.wav") true]⟩ := by
  decide

/-- Claim C8 (amended): the per-item cleanup only ever targets the item's
scratch input, the audio slot, and the (mktemp-shaped) subtitle path, and
none of these can equal that item's own output path `output_<name>` — so an
item's cleanup never deletes its own output video.  (A *later* item whose
upload is named `output_<name>` reuses that very path as its input and does
overwrite and delete it — see the counterexample — so outputs are only
guaranteed to survive until the next name collision or the workspace
teardown, whichever comes first.) -/
theorem c8_amended_own_output_not_deleted (name : String) (sv : Option FPath)
    (fs : FS) (hsv : ∀ s, sv = some s → ∃ n, s = mktempSrt n) (p : FPath) (b : Bool)
    (hp : Event.removeAttempt p b ∈ (cleanupItem (pathJoin mainTempDir name)
        (pathJoin mainTempDir "extracted_audio.wav") sv fs).events) :
    p ≠ pathJoin mainTempDir ("output_" ++ name) := by
  rcases cleanupItem_removeAttempt_mem _ _ _ _ _ _ hp with h | h | h
  · subst h
    intro hcontra
    have heq : name = "output_" ++ name := by
      simpa [pathJoin, mainTempDir] using hcontra
    have hl := congrArg String.length heq
    rw [String.length_append] at hl
    have h7 : "output_".length = 7 := rfl
    rw [h7] at hl
    omega
  · subst h
    intro hcontra
    have heq : "extracted_audio.wav" = "output_" ++ name := by
      simpa [pathJoin, mainTempDir] using hcontra
    have hd : "output_".data ++ name.data = "extracted_audio.wav".data :=
      congrArg String.data heq.symm
    have h7 : ("output_".data ++ name.data).take 7 = "output_".data := by
      have hlen : "output_".data.length = 7 := by decide
      rw [← hlen]
      exact List.take_left _ _
    rw [hd] at h7
    exact absurd h7 (by decide)
  · obtain ⟨n, rfl⟩ := hsv _ h
    intro hcontra
    exact pathJoin_mainTempDir_ne_mktempSrt ("output_" ++ name) n hcontra.symm

/-- Witness for the amended C8: a concrete cleanup attempt whose target is
provably distinct from the item's output path. -/
theorem c8_amended_own_output_not_deleted_wit :
    Event.removeAttempt (pathJoin mainTempDir "a.mp4") false
      ∈ (cleanupItem (pathJoin mainTempDir "a.mp4")
          (pathJoin mainTempDir "extracted_audio.wav") (some (mktempSrt 0)) []).events ∧
    pathJoin mainTempDir "a.mp4" ≠ pathJoin mainTempDir ("output_" ++ "a.mp4") :=
  ⟨by decide,
   c8_amended_own_output_not_deleted "a.mp4" (some (mktempSrt 0)) []
     (fun s hs => ⟨0, (Option.some.inj hs).symm⟩) (pathJoin mainTempDir "a.mp4") false
     (by decide)⟩

/-- Counterexample to C8 as stated: in the batch `a.mp4`, `output_a.mp4`
(both legal uploads), the first item's output video is delivered (the
`download` event), but the second item's input is written to that same path
and the second item's per-item cleanup then deletes it — the file at the
first item's output path is removed by a per-item cleanup step, not by the
workspace teardown. -/
theorem c8_cex_collision_deletes_earlier_output :
    Event.download (pathJoin mainTempDir ("output_" ++ "a.mp4"))
      ∈ (pipelineMain wAllOk [("a.mp4", "A"), ("output_a.mp4", "B")] []).events ∧
    Event.removeAttempt (pathJoin mainTempDir ("output_" ++ "a.mp4")) true
      ∈ (pipelineMain wAllOk [("a.mp4", "A"), ("output_a.mp4", "B")] []).events := by
  constructor <;> decide

theorem tmp_append_ne_workdir (x : String) : "tmp" ++ x ≠ "workdir" := by
  intro h
  have hd : "tmp".data ++ x.data = "workdir".data := congrArg String.data h
  have h3 : ("tmp".data ++ x.data).take 3 = "tmp".data := by
    have hlen : "tmp".data.length = 3 := by decide
    rw [← hlen]
    exact List.take_left _ _
  rw [hd] at h3
  exact absurd h3 (by decide)

/-- Claim C9 (amended): the input copy, the extracted audio and the output
video all live at paths inside the scratch workspace, and the workspace
together with everything under it is removed when the run ends, whether the
run finished normally or aborted on an uncaught exception (no path under the
workspace survives in the final filesystem).  The subtitle file, however, is
allocated by `tempfile.mktemp` in the global temporary directory, outside
the workspace — it is never covered by the workspace teardown. -/
theorem c9_amended_workspace (w : World) (videos : List (String × String)) (fs0 : FS) :
    (∀ p c, (p, c) ∈ (pipelineMain w videos fs0).fs → underDir mainTempDir p = false) ∧
    (∀ x, underDir mainTempDir (pathJoin mainTempDir x) = true) ∧
    (∀ n, underDir mainTempDir (mktempSrt n) = false) := by
  refine ⟨?_, ?_, ?_⟩
  · intro p c h
    unfold pipelineMain at h
    exact mem_removeDirTree _ _ _ _ h
  · intro x
    rfl
  · intro n
    unfold underDir
    apply decide_eq_false
    intro h
    have hs : "tmp" ++ toString n ++ ".srt" = "workdir" := by
      simpa [mktempSrt, mainTempDir] using h
    rw [String.append_assoc] at hs
    exact tmp_append_ne_workdir (toString n ++ ".srt") hs

/-- Witness for the amended C9: a run started with an unrelated file outside
the workspace; that file survives and is indeed not under the workspace. -/
theorem c9_amended_workspace_wit :
    ((["etc", "hosts"] : FPath), "x") ∈ (pipelineMain wAllOk [] [(["etc", "hosts"], "x")]).fs ∧
    underDir mainTempDir ["etc", "hosts"] = false :=
  ⟨by decide,
   (c9_amended_workspace wAllOk [] [(["etc", "hosts"], "x")]).1 ["etc", "hosts"] "x" (by decide)⟩

/-- Counterexample to C9 as stated: the subtitle file written by the
Transcriber in a concrete successful call lives at `/tmp/tmp0.srt`, which is
not inside the scratch workspace `/tmp/workdir` — so not every intermediate
file of a run resides in the workspace directory, and the workspace teardown
does not cover it. -/
theorem c9_cex_srt_outside_workspace :
    (transcribe_and_save_srt wAllOk 0 (pathJoin mainTempDir "extracted_audio.wav") "a.mp4"
        [(pathJoin mainTempDir "extracted_audio.wav", "AUD")]).res = .ok (mktempSrt 0) ∧
    fsLookup (transcribe_and_save_srt wAllOk 0 (pathJoin mainTempDir "extracted_audio.wav")
        "a.mp4" [(pathJoin mainTempDir "extracted_audio.wav", "AUD")]).fs (mktempSrt 0)
      = some "1\n00:00:00,000 --> 00:00:01,000\nhi\n" ∧
    underDir mainTempDir (mktempSrt 0) = false := by
  exact ⟨rfl, rfl, rfl⟩
